import Mathlib

/-!
Shallow embedding of the booking-creation workflow in
src/actions/bookings.js: the helpers getGoogleOAuthToken and
createGoogleCalendarEvent and the exported action createBooking.

External collaborators (the Clerk token provider, the Google Calendar API
and the Prisma database) are modelled by an environment `Env` recording
what each call would do if reached; createBooking is a total function on
that environment returning the result object together with the ordered
trace of external calls it performed.
-/

namespace Sheduler

/-- Input to createBooking: the bookingData object. -/
structure BookingRequest where
  eventId : String
  name : String
  email : String
  startTime : String
  endTime : String
  additionalInfo : String
deriving Repr, DecidableEq

/-- The event owner joined at read time (event.user in the source). -/
structure EventOwner where
  clerkUserId : String
  email : String
deriving Repr, DecidableEq

/-- The scheduling event fetched by db.event.findUnique with its user. -/
structure SchedulingEvent where
  id : String
  title : String
  userId : String
  user : EventOwner
deriving Repr, DecidableEq

/-- A JavaScript exception as the source distinguishes them: an OAuthError
carries a string code and is recognised by instanceof; an error thrown by a
collaborator may carry a code field the catch blocks inspect; a plain Error
has only a message. -/
inductive Exn where
  | oauthError (message : String) (code : String)
  | providerError (message : String) (code : Option String)
  | plainError (message : String)
deriving Repr, DecidableEq

/-- The message property of the exception. -/
def Exn.message : Exn → String
  | .oauthError m _ => m
  | .providerError m _ => m
  | .plainError m => m

/-- The code property of the exception (none when undefined). -/
def Exn.codeField : Exn → Option String
  | .oauthError _ c => some c
  | .providerError _ c => c
  | .plainError _ => none

/-- Whether the exception is an instance of the OAuthError class. -/
def Exn.isOAuthError : Exn → Bool
  | .oauthError _ _ => true
  | _ => false

/-- The behaviour of clerk.users.getUserOauthAccessToken on this run:
it returns a usable token, returns data whose first entry has no token,
or throws an error carrying the given code field. -/
inductive TokenFetch where
  | ok (token : String)
  | noToken
  | raises (code : Option String) (message : String)
deriving Repr, DecidableEq

/-- The behaviour of calendar.events.insert on this run: success with a
hangout link and an event id, a throw whose code field is the number 401,
or any other throw. -/
inductive CalendarOutcome where
  | ok (meetLink : String) (googleEventId : String)
  | err401
  | errOther (message : String)
deriving Repr, DecidableEq

/-- The behaviour of db.event.findUnique on this run. -/
inductive FindOutcome where
  | found (e : SchedulingEvent)
  | notFound
  | raises (message : String)
deriving Repr, DecidableEq

/-- The behaviour of db.booking.create on this run. -/
inductive InsertOutcome where
  | ok
  | raises (message : String)
deriving Repr, DecidableEq

/-- One invocation's collaborator behaviour: what each external call does
if the run reaches it. -/
structure Env where
  findEvent : FindOutcome
  tokenFetch : TokenFetch
  calendar : CalendarOutcome
  insert : InsertOutcome
deriving Repr, DecidableEq

/-- What createGoogleCalendarEvent returns on success. -/
structure GoogleEvent where
  meetLink : String
  googleEventId : String
deriving Repr, DecidableEq

/-- Embedding of getGoogleOAuthToken. The try block yields the token,
throws the NO_GOOGLE_CONNECTION OAuthError when data[0] has no token, or
lets the provider error escape; the catch block then rewraps whatever was
thrown, by its code field. -/
def getGoogleOAuthToken (fetch : TokenFetch) : Except Exn String :=
  let tryBlock : Except Exn String :=
    match fetch with
    | .ok t => .ok t
    | .noToken =>
        .error (.oauthError "Google Calendar not connected" "NO_GOOGLE_CONNECTION")
    | .raises c m => .error (.providerError m c)
  match tryBlock with
  | .ok t => .ok t
  | .error e =>
      if e.codeField = some "oauth_token_retrieval_error" then
        .error (.oauthError "Please reconnect your Google Calendar" "GOOGLE_AUTH_REQUIRED")
      else
        .error (.oauthError "Failed to access Google Calendar" "GOOGLE_AUTH_ERROR")

/-- Embedding of createGoogleCalendarEvent: its catch turns a 401 throw
into the GOOGLE_TOKEN_EXPIRED OAuthError and any other throw into a plain
Error with a fixed message. -/
def createGoogleCalendarEvent (outcome : CalendarOutcome) : Except Exn GoogleEvent :=
  match outcome with
  | .ok link gid => .ok { meetLink := link, googleEventId := gid }
  | .err401 =>
      .error (.oauthError "Google Calendar access expired" "GOOGLE_TOKEN_EXPIRED")
  | .errOther _ => .error (.plainError "Failed to create Google Calendar event")

/-- The row handed to db.booking.create, which is also the booking object
the database returns on success. -/
structure Booking where
  eventId : String
  userId : String
  name : String
  email : String
  startTime : String
  endTime : String
  additionalInfo : String
  meetLink : String
  googleEventId : String
deriving Repr, DecidableEq

/-- An external call observed during a run, with the arguments the source
passes to it. -/
inductive Call where
  | findEventCall (eventId : String)
  | tokenCall (clerkUserId : String)
  | calendarCall (token : String) (summary : String) (description : String)
      (startTime : String) (endTime : String) (attendees : List String)
  | insertCall (row : Booking)
deriving Repr, DecidableEq

/-- The plain result object createBooking always returns; a field the
source leaves out of a branch is none. -/
structure BookingResult where
  success : Bool
  error : Option String := none
  code : Option String := none
  requiresReauth : Option Bool := none
  details : Option String := none
  booking : Option Booking := none
  meetLink : Option String := none
deriving Repr, DecidableEq

/-- Embedding of createBooking: the result object and the ordered trace of
external calls performed on the run. -/
def createBooking (env : Env) (bookingData : BookingRequest) :
    BookingResult × List Call :=
  let t0 : List Call := [Call.findEventCall bookingData.eventId]
  match env.findEvent with
  | .raises msg =>
      ({ success := false, error := some "Failed to create booking",
         details := some msg }, t0)
  | .notFound =>
      ({ success := false, error := some "Event not found" }, t0)
  | .found event =>
    let t1 := t0 ++ [Call.tokenCall event.user.clerkUserId]
    match getGoogleOAuthToken env.tokenFetch with
    | .error e =>
        ({ success := false, error := some e.message, code := e.codeField,
           requiresReauth := some (e.codeField == some "GOOGLE_AUTH_REQUIRED") }, t1)
    | .ok token =>
      let summary := bookingData.name ++ " - " ++ event.title
      let attendees := [bookingData.email, event.user.email]
      let t2 := t1 ++ [Call.calendarCall token summary bookingData.additionalInfo
        bookingData.startTime bookingData.endTime attendees]
      match createGoogleCalendarEvent env.calendar with
      | .error e =>
          if e.isOAuthError then
            ({ success := false,
               error := some "Failed to create calendar event. Please reconnect Google Calendar.",
               code := e.codeField, requiresReauth := some true }, t2)
          else
            ({ success := false, error := some "Failed to create booking",
               details := some e.message }, t2)
      | .ok googleEvent =>
        let row : Booking :=
          { eventId := event.id, userId := event.userId, name := bookingData.name,
            email := bookingData.email, startTime := bookingData.startTime,
            endTime := bookingData.endTime,
            additionalInfo := bookingData.additionalInfo,
            meetLink := googleEvent.meetLink,
            googleEventId := googleEvent.googleEventId }
        let t3 := t2 ++ [Call.insertCall row]
        match env.insert with
        | .raises msg =>
            ({ success := false, error := some "Failed to create booking",
               details := some msg }, t3)
        | .ok =>
            ({ success := true, booking := some row,
               meetLink := some googleEvent.meetLink }, t3)

/-- Whether the trace holds a token-provider call. -/
def callsToken (tr : List Call) : Bool :=
  tr.any fun c => match c with | .tokenCall _ => true | _ => false

/-- Whether the trace holds a calendar-creation call. -/
def callsCalendar (tr : List Call) : Bool :=
  tr.any fun c => match c with | .calendarCall _ _ _ _ _ _ => true | _ => false

/-- Whether the trace holds a booking-insert call. -/
def callsInsert (tr : List Call) : Bool :=
  tr.any fun c => match c with | .insertCall _ => true | _ => false

/-- A concrete event owner used by the closed theorems. -/
def sampleOwner : EventOwner := { clerkUserId := "clerk-1", email := "owner@host.io" }

/-- A concrete scheduling event used by the closed theorems. -/
def sampleEvent : SchedulingEvent :=
  { id := "E1", title := "Intro Call", userId := "U1", user := sampleOwner }

/-- A concrete booking request used by the closed theorems. -/
def sampleRequest : BookingRequest :=
  { eventId := "E1", name := "Alice", email := "alice@host.io",
    startTime := "2026-01-01T10:00:00Z", endTime := "2026-01-01T10:30:00Z",
    additionalInfo := "notes" }

/-- The token helper succeeds exactly when the provider returned a token:
every other behaviour is rewrapped into a thrown OAuthError. -/
lemma getGoogleOAuthToken_ok_iff (tf : TokenFetch) (t : String) :
    getGoogleOAuthToken tf = .ok t ↔ tf = .ok t := by
  cases tf <;> simp [getGoogleOAuthToken, Exn.codeField]
  split <;> simp

/-- On a missing token, the helper's own catch rewraps the
NO_GOOGLE_CONNECTION error as GOOGLE_AUTH_ERROR. -/
lemma getGoogleOAuthToken_noToken :
    getGoogleOAuthToken .noToken =
      .error (.oauthError "Failed to access Google Calendar" "GOOGLE_AUTH_ERROR") := by
  simp [getGoogleOAuthToken, Exn.codeField]

/-- Concrete run: event found, owner has no linked Google token. -/
def envNoToken : Env :=
  { findEvent := .found sampleEvent, tokenFetch := .noToken,
    calendar := .ok "https://meet/x" "G1", insert := .ok }

/-- Concrete run: calendar call fails with a 401 authorization error. -/
def env401 : Env :=
  { findEvent := .found sampleEvent, tokenFetch := .ok "tok",
    calendar := .err401, insert := .ok }

/-- Concrete run: the eventId matches no stored event. -/
def envNotFound : Env :=
  { findEvent := .notFound, tokenFetch := .ok "tok",
    calendar := .ok "https://meet/x" "G1", insert := .ok }

/-- Concrete run: the provider throws the oauth_token_retrieval_error. -/
def envRetrievalErr : Env :=
  { findEvent := .found sampleEvent,
    tokenFetch := .raises (some "oauth_token_retrieval_error") "boom",
    calendar := .ok "https://meet/x" "G1", insert := .ok }

/-- Concrete run: the provider throws an error with no code field. -/
def envOtherErr : Env :=
  { findEvent := .found sampleEvent, tokenFetch := .raises none "network down",
    calendar := .ok "https://meet/x" "G1", insert := .ok }

/-- Concrete run: every collaborator succeeds. -/
def envSuccess : Env :=
  { findEvent := .found sampleEvent, tokenFetch := .ok "tok",
    calendar := .ok "https://meet/x" "G1", insert := .ok }

/-- Concrete run: the calendar call fails with a non-401 error. -/
def envCalOther : Env :=
  { findEvent := .found sampleEvent, tokenFetch := .ok "tok",
    calendar := .errOther "quota exceeded", insert := .ok }

/-- Concrete run: the booking insert throws. -/
def envInsertFail : Env :=
  { findEvent := .found sampleEvent, tokenFetch := .ok "tok",
    calendar := .ok "https://meet/x" "G1", insert := .raises "db down" }

/-- Concrete run: the event lookup itself throws. -/
def envFindRaises : Env :=
  { findEvent := .raises "db down", tokenFetch := .ok "tok",
    calendar := .ok "https://meet/x" "G1", insert := .ok }

/-- C1: at a concrete request whose event exists but whose owner has no
linked Google account (the provider returns no token), createBooking
returns code GOOGLE_AUTH_ERROR with requiresReauth false, not the claimed
NO_GOOGLE_CONNECTION: the NO_GOOGLE_CONNECTION OAuthError is thrown inside
getGoogleOAuthToken's own try block, so its catch rewraps it. No calendar
or insert call occurs on this run. -/
theorem c1_no_token_rewrapped_as_auth_error :
    (createBooking envNoToken sampleRequest).1 =
      { success := false, error := some "Failed to access Google Calendar",
        code := some "GOOGLE_AUTH_ERROR", requiresReauth := some false } ∧
    (createBooking envNoToken sampleRequest).1.code ≠ some "NO_GOOGLE_CONNECTION" ∧
    callsCalendar (createBooking envNoToken sampleRequest).2 = false ∧
    callsInsert (createBooking envNoToken sampleRequest).2 = false := by
  decide

/-- C2 counterexample: on a run where the calendar call fails with a 401
authorization error, the result's error string is not the claimed
"Google Calendar access expired" (though the code and reauth flag match). -/
theorem c2_error_message_counterexample :
    (createBooking env401 sampleRequest).1.code = some "GOOGLE_TOKEN_EXPIRED" ∧
    (createBooking env401 sampleRequest).1.error ≠
      some "Google Calendar access expired" := by
  decide

/-- C2 amended: whenever the calendar-creation call fails with a 401
authorization error, createBooking returns success false, the error string
"Failed to create calendar event. Please reconnect Google Calendar.",
code GOOGLE_TOKEN_EXPIRED and requiresReauth true, and the booking insert
is not invoked. -/
theorem c2_calendar_auth_failure (env : Env) (req : BookingRequest)
    (e : SchedulingEvent) (t : String)
    (hf : env.findEvent = .found e) (ht : env.tokenFetch = .ok t)
    (hc : env.calendar = .err401) :
    (createBooking env req).1 =
      { success := false,
        error := some "Failed to create calendar event. Please reconnect Google Calendar.",
        code := some "GOOGLE_TOKEN_EXPIRED", requiresReauth := some true } ∧
    callsInsert (createBooking env req).2 = false := by
  simp [createBooking, hf, ht, hc, getGoogleOAuthToken, createGoogleCalendarEvent,
    Exn.codeField, Exn.isOAuthError, callsInsert]

/-- C2 witness: the amended statement at a concrete run. -/
theorem c2_calendar_auth_failure_witness :
    (createBooking env401 sampleRequest).1 =
      { success := false,
        error := some "Failed to create calendar event. Please reconnect Google Calendar.",
        code := some "GOOGLE_TOKEN_EXPIRED", requiresReauth := some true } ∧
    callsInsert (createBooking env401 sampleRequest).2 = false :=
  c2_calendar_auth_failure env401 sampleRequest sampleEvent "tok" rfl rfl rfl

/-- C3: when the eventId matches no stored event, createBooking returns
exactly success false with error "Event not found", and no token, calendar
or insert call is performed. -/
theorem c3_event_not_found (env : Env) (req : BookingRequest)
    (h : env.findEvent = .notFound) :
    (createBooking env req).1 =
      { success := false, error := some "Event not found" } ∧
    callsToken (createBooking env req).2 = false ∧
    callsCalendar (createBooking env req).2 = false ∧
    callsInsert (createBooking env req).2 = false := by
  simp [createBooking, h, callsToken, callsCalendar, callsInsert]

/-- C3 witness: the statement at a concrete run. -/
theorem c3_event_not_found_witness :
    (createBooking envNotFound sampleRequest).1 =
      { success := false, error := some "Event not found" } ∧
    callsToken (createBooking envNotFound sampleRequest).2 = false ∧
    callsCalendar (createBooking envNotFound sampleRequest).2 = false ∧
    callsInsert (createBooking envNotFound sampleRequest).2 = false :=
  c3_event_not_found envNotFound sampleRequest rfl

/-- C4: when the provider throws the oauth_token_retrieval_error, the run
returns a failure with code GOOGLE_AUTH_REQUIRED and requiresReauth true. -/
theorem c4_token_retrieval_error (env : Env) (req : BookingRequest)
    (e : SchedulingEvent) (m : String)
    (hf : env.findEvent = .found e)
    (ht : env.tokenFetch = .raises (some "oauth_token_retrieval_error") m) :
    (createBooking env req).1.success = false ∧
    (createBooking env req).1.code = some "GOOGLE_AUTH_REQUIRED" ∧
    (createBooking env req).1.requiresReauth = some true := by
  simp [createBooking, hf, ht, getGoogleOAuthToken, Exn.codeField, Exn.message]

/-- C4 witness: the statement at a concrete run. -/
theorem c4_token_retrieval_error_witness :
    (createBooking envRetrievalErr sampleRequest).1.success = false ∧
    (createBooking envRetrievalErr sampleRequest).1.code =
      some "GOOGLE_AUTH_REQUIRED" ∧
    (createBooking envRetrievalErr sampleRequest).1.requiresReauth = some true :=
  c4_token_retrieval_error envRetrievalErr sampleRequest sampleEvent "boom" rfl rfl

/-- C5: when the provider throws any error whose code is not
oauth_token_retrieval_error, the run returns a failure with code
GOOGLE_AUTH_ERROR and requiresReauth false. -/
theorem c5_other_provider_error (env : Env) (req : BookingRequest)
    (e : SchedulingEvent) (c : Option String) (m : String)
    (hf : env.findEvent = .found e)
    (ht : env.tokenFetch = .raises c m)
    (hc : c ≠ some "oauth_token_retrieval_error") :
    (createBooking env req).1.success = false ∧
    (createBooking env req).1.code = some "GOOGLE_AUTH_ERROR" ∧
    (createBooking env req).1.requiresReauth = some false := by
  simp [createBooking, hf, ht, hc, getGoogleOAuthToken, Exn.codeField, Exn.message]

/-- C5 witness: the statement at a concrete run. -/
theorem c5_other_provider_error_witness :
    (createBooking envOtherErr sampleRequest).1.success = false ∧
    (createBooking envOtherErr sampleRequest).1.code = some "GOOGLE_AUTH_ERROR" ∧
    (createBooking envOtherErr sampleRequest).1.requiresReauth = some false :=
  c5_other_provider_error envOtherErr sampleRequest sampleEvent none "network down"
    rfl rfl (by decide)

/-- C6: on a fully successful run the inserted row carries exactly the
meetLink and event id returned by the calendar call, the result is
success true with that row as booking and that same meetLink, and that
row is what the insert call received. -/
theorem c6_full_success (env : Env) (req : BookingRequest)
    (e : SchedulingEvent) (t lk gid : String)
    (hf : env.findEvent = .found e) (ht : env.tokenFetch = .ok t)
    (hc : env.calendar = .ok lk gid) (hi : env.insert = .ok) :
    ∃ b : Booking,
      (createBooking env req).1 =
        { success := true, booking := some b, meetLink := some lk } ∧
      b.meetLink = lk ∧ b.googleEventId = gid ∧
      Call.insertCall b ∈ (createBooking env req).2 := by
  refine ⟨{ eventId := e.id, userId := e.userId, name := req.name,
            email := req.email, startTime := req.startTime, endTime := req.endTime,
            additionalInfo := req.additionalInfo, meetLink := lk,
            googleEventId := gid }, ?_, rfl, rfl, ?_⟩ <;>
    simp [createBooking, hf, ht, hc, hi, getGoogleOAuthToken,
      createGoogleCalendarEvent]

/-- C6 witness: the statement at a concrete run. -/
theorem c6_full_success_witness :
    ∃ b : Booking,
      (createBooking envSuccess sampleRequest).1 =
        { success := true, booking := some b, meetLink := some "https://meet/x" } ∧
      b.meetLink = "https://meet/x" ∧ b.googleEventId = "G1" ∧
      Call.insertCall b ∈ (createBooking envSuccess sampleRequest).2 :=
  c6_full_success envSuccess sampleRequest sampleEvent "tok" "https://meet/x" "G1"
    rfl rfl rfl rfl

/-- C7: every run that reaches the calendar-creation step passes it the
summary "(requester name) - (event title)" and the attendee list
[requester email, owner email]; moreover no calendar call with any other
summary or attendee list occurs on any such run. -/
theorem c7_calendar_call_shape (env : Env) (req : BookingRequest)
    (e : SchedulingEvent) (t : String)
    (hf : env.findEvent = .found e) (ht : env.tokenFetch = .ok t) :
    Call.calendarCall t (req.name ++ " - " ++ e.title) req.additionalInfo
        req.startTime req.endTime [req.email, e.user.email] ∈
      (createBooking env req).2 ∧
    ∀ tok s d st et att,
      Call.calendarCall tok s d st et att ∈ (createBooking env req).2 →
        s = req.name ++ " - " ++ e.title ∧ att = [req.email, e.user.email] := by
  rcases env with ⟨fe, tf, cal, ins⟩
  simp only at hf ht
  subst hf
  subst ht
  cases cal <;> cases ins <;>
    simp [createBooking, getGoogleOAuthToken, createGoogleCalendarEvent,
      Exn.isOAuthError, Exn.codeField, Exn.message] <;>
    aesop

/-- C7 witness: the statement at a concrete run. -/
theorem c7_calendar_call_shape_witness :
    Call.calendarCall "tok" ("Alice" ++ " - " ++ "Intro Call") "notes"
        "2026-01-01T10:00:00Z" "2026-01-01T10:30:00Z"
        ["alice@host.io", "owner@host.io"] ∈
      (createBooking envSuccess sampleRequest).2 ∧
    ∀ tok s d st et att,
      Call.calendarCall tok s d st et att ∈ (createBooking envSuccess sampleRequest).2 →
        s = "Alice" ++ " - " ++ "Intro Call" ∧
        att = ["alice@host.io", "owner@host.io"] :=
  c7_calendar_call_shape envSuccess sampleRequest sampleEvent "tok" rfl rfl

/-- C8: createBooking always returns a result value, and every exception
not classified by an earlier branch reaches the outermost handler, which
returns success false with error "Failed to create booking" and the
escaping exception's message as details: a throwing event lookup, a
non-401 calendar failure (whose rethrown exception carries the message
"Failed to create Google Calendar event"), and a throwing insert. -/
theorem c8_outer_catch (env : Env) (req : BookingRequest) (m : String) :
    ((createBooking env req).1.success = true ∨
      (createBooking env req).1.error.isSome = true) ∧
    (env.findEvent = .raises m →
      (createBooking env req).1 =
        { success := false, error := some "Failed to create booking",
          details := some m }) ∧
    (∀ e t, env.findEvent = .found e → env.tokenFetch = .ok t →
      env.calendar = .errOther m →
      (createBooking env req).1 =
        { success := false, error := some "Failed to create booking",
          details := some "Failed to create Google Calendar event" }) ∧
    (∀ e t lk gid, env.findEvent = .found e → env.tokenFetch = .ok t →
      env.calendar = .ok lk gid → env.insert = .raises m →
      (createBooking env req).1 =
        { success := false, error := some "Failed to create booking",
          details := some m }) := by
  refine ⟨?_, ?_, ?_, ?_⟩
  · rcases env with ⟨fe, tf, cal, ins⟩
    cases fe with
    | raises k => simp [createBooking]
    | notFound => simp [createBooking]
    | found e =>
      rcases hG : getGoogleOAuthToken tf with exn | tok
      · simp [createBooking, hG]
      · cases cal <;> cases ins <;>
          simp [createBooking, hG, createGoogleCalendarEvent, Exn.isOAuthError,
            Exn.message]
  · intro h
    simp [createBooking, h]
  · intro e t hf ht hc
    simp [createBooking, hf, ht, hc, getGoogleOAuthToken,
      createGoogleCalendarEvent, Exn.isOAuthError, Exn.message]
  · intro e t lk gid hf ht hc hi
    simp [createBooking, hf, ht, hc, hi, getGoogleOAuthToken,
      createGoogleCalendarEvent]

/-- C8 witness: the three unclassified failures at concrete runs, each
through the general statement. -/
theorem c8_outer_catch_witness :
    (createBooking envFindRaises sampleRequest).1 =
      { success := false, error := some "Failed to create booking",
        details := some "db down" } ∧
    (createBooking envCalOther sampleRequest).1 =
      { success := false, error := some "Failed to create booking",
        details := some "Failed to create Google Calendar event" } ∧
    (createBooking envInsertFail sampleRequest).1 =
      { success := false, error := some "Failed to create booking",
        details := some "db down" } :=
  ⟨(c8_outer_catch envFindRaises sampleRequest "db down").2.1 rfl,
   (c8_outer_catch envCalOther sampleRequest "quota exceeded").2.2.1
     sampleEvent "tok" rfl rfl rfl,
   (c8_outer_catch envInsertFail sampleRequest "db down").2.2.2
     sampleEvent "tok" "https://meet/x" "G1" rfl rfl rfl rfl⟩

/-- C9: a booking insert occurs only after a successful calendar creation:
whenever the trace holds an insert call, the calendar collaborator
succeeded on this run, the insert is the last call, and a calendar call
precedes it. -/
theorem c9_insert_only_after_calendar_success (env : Env) (req : BookingRequest)
    (b : Booking) (h : Call.insertCall b ∈ (createBooking env req).2) :
    ∃ lk gid, env.calendar = .ok lk gid ∧
      ∃ pre, (createBooking env req).2 = pre ++ [Call.insertCall b] ∧
        callsCalendar pre = true := by
  rcases env with ⟨fe, tf, cal, ins⟩
  cases fe with
  | raises k => simp [createBooking] at h
  | notFound => simp [createBooking] at h
  | found e =>
    rcases hG : getGoogleOAuthToken tf with exn | tok
    · simp [createBooking, hG] at h
    · cases cal with
      | err401 =>
          simp [createBooking, hG, createGoogleCalendarEvent, Exn.isOAuthError] at h
      | errOther k =>
          simp [createBooking, hG, createGoogleCalendarEvent, Exn.isOAuthError] at h
      | ok lk gid =>
          refine ⟨lk, gid, rfl, ?_⟩
          cases ins <;>
          · simp [createBooking, hG, createGoogleCalendarEvent] at h ⊢
            subst h
            refine ⟨[Call.findEventCall req.eventId,
              Call.tokenCall e.user.clerkUserId,
              Call.calendarCall tok (req.name ++ " - " ++ e.title)
                req.additionalInfo req.startTime req.endTime
                [req.email, e.user.email]], ?_, ?_⟩ <;>
              simp [createBooking, hG, createGoogleCalendarEvent, callsCalendar]

/-- C9 witness: the statement at a concrete run whose trace holds the
insert call. -/
theorem c9_insert_only_after_calendar_success_witness :
    ∃ lk gid, envSuccess.calendar = .ok lk gid ∧
      ∃ pre, (createBooking envSuccess sampleRequest).2 =
          pre ++ [Call.insertCall
            { eventId := "E1", userId := "U1", name := "Alice",
              email := "alice@host.io", startTime := "2026-01-01T10:00:00Z",
              endTime := "2026-01-01T10:30:00Z", additionalInfo := "notes",
              meetLink := "https://meet/x", googleEventId := "G1" }] ∧
        callsCalendar pre = true :=
  c9_insert_only_after_calendar_success envSuccess sampleRequest _ (by decide)

/-- C10: the result always carries a boolean success flag, and it is true
exactly when event lookup, token retrieval, calendar creation and the
booking insert all succeed; every other collaborator behaviour yields
success false. -/
theorem c10_success_iff (env : Env) (req : BookingRequest) :
    (createBooking env req).1.success = true ↔
      (∃ e, env.findEvent = .found e) ∧ (∃ t, env.tokenFetch = .ok t) ∧
      (∃ lk gid, env.calendar = .ok lk gid) ∧ env.insert = .ok := by
  rcases env with ⟨fe, tf, cal, ins⟩
  cases fe with
  | raises k => simp [createBooking]
  | notFound => simp [createBooking]
  | found e =>
    rcases hG : getGoogleOAuthToken tf with exn | tok
    · simp only [createBooking]
      simp [hG]
      rintro t rfl
      simp [getGoogleOAuthToken] at hG
    · have htf := (getGoogleOAuthToken_ok_iff tf tok).mp hG
      subst htf
      cases cal <;> cases ins <;>
        simp [createBooking, getGoogleOAuthToken, createGoogleCalendarEvent,
          Exn.isOAuthError]

end Sheduler
